import Mathlib

/-!
Shallow embedding of the email-scheduler dispatch engine
(`src/mini-services/email-scheduler/index.ts` and
`src/mini-services/email-scheduler/lib/security.ts`).

Timestamps are modelled as milliseconds since the Unix epoch (`Int` where a
difference may be negative, `Nat` for wall-clock readings of `Date.now()`).
-/

namespace EmailScheduler

/-- Recipient lifecycle states, the values stored in the `status` column of an
`EmailRecipient` row (`pending`, `scheduled`, `sent`, `failed`). -/
inductive RecipientStatus
  | pending
  | scheduled
  | sent
  | failed
deriving DecidableEq, Repr

/-- Job lifecycle states, the values stored in the `status` column of an
`EmailJob` row. -/
inductive JobStatus
  | pending
  | processing
  | completed
  | failed
deriving DecidableEq, Repr

/-- A persisted `EmailRecipient` row. `scheduledAt` and `sentAt` are
millisecond timestamps; `none` models a SQL NULL. -/
structure RecipientRow where
  id : String
  email : String
  emailJobId : String
  status : RecipientStatus
  scheduledAt : Option Int
  sentAt : Option Int
  errorMessage : Option String
  retryCount : Nat
deriving DecidableEq, Repr

/-- A persisted `EmailJob` row. -/
structure EmailJobRow where
  id : String
  subject : String
  body : String
  scheduledFor : Int
  delaySeconds : Int
  hourlyLimit : Int
  status : JobStatus
  userId : String
deriving DecidableEq, Repr

/-! ## Submission: POST /api/emails/schedule (index.ts lines 161-227) -/

/-- The per-recipient record written by the schedule handler's fan-out loop:
the computed `scheduledAt`, the queue visibility delay, and the status chosen
by the immediate-versus-deferred classification. -/
structure ScheduledRecipient where
  email : String
  scheduledAt : Int
  queueDelay : Int
  status : RecipientStatus
deriving DecidableEq, Repr

/-- index.ts lines 182-197: for the recipient at `index`,
`delay = index * delaySeconds * 1000`, `scheduledTime = startTime + delay`,
`queueDelay = max(0, scheduledTime - now)`, and the row is updated with
`scheduledAt = scheduledTime` and status `pending` when `queueDelay < 10000`
(immediate) or `scheduled` otherwise (deferred). -/
def scheduleRecipient (startTime now delaySeconds : Int) (index : Nat)
    (email : String) : ScheduledRecipient :=
  let delay : Int := (index : Int) * delaySeconds * 1000
  let scheduledTime : Int := startTime + delay
  let queueDelay : Int := max 0 (scheduledTime - now)
  { email := email
    scheduledAt := scheduledTime
    queueDelay := queueDelay
    status := if queueDelay < 10000 then .pending else .scheduled }

/-- The `emailJob.recipients.map((recipient, index) => ...)` loop of
index.ts lines 182-219, carrying the running index explicitly. -/
def scheduleRecipientsFrom (startTime now delaySeconds : Int) :
    Nat → List String → List ScheduledRecipient
  | _, [] => []
  | i, e :: rest =>
      scheduleRecipient startTime now delaySeconds i e ::
        scheduleRecipientsFrom startTime now delaySeconds (i + 1) rest

/-- All per-recipient scheduling records for one submission, in submission
order (0-based indices). -/
def scheduleRecipients (startTime now delaySeconds : Int)
    (recipients : List String) : List ScheduledRecipient :=
  scheduleRecipientsFrom startTime now delaySeconds 0 recipients

/-- index.ts lines 169-174: the nested create makes one `EmailRecipient` row
per submitted address, initially with `status = pending`. -/
def createdRecipients (jobId : String) (recipients : List String) :
    List RecipientRow :=
  recipients.map (fun e =>
    { id := ""
      email := e
      emailJobId := jobId
      status := .pending
      scheduledAt := none
      sentAt := none
      errorMessage := none
      retryCount := 0 })

/-- The success response body of the schedule endpoint
(index.ts lines 223-227): `jobId`, `recipientCount`, `scheduledFor`. -/
structure ScheduleOkResponse where
  jobId : String
  recipientCount : Nat
  scheduledFor : Int
deriving DecidableEq, Repr

/-- index.ts lines 223-227: `recipientCount` is the length of the recipient
rows created for the job, and `scheduledFor` is the job's start time. -/
def scheduleOkResponse (jobId : String) (startTime : Int)
    (recipients : List String) : ScheduleOkResponse :=
  { jobId := jobId
    recipientCount := (createdRecipients jobId recipients).length
    scheduledFor := startTime }

theorem length_scheduleRecipientsFrom (startTime now delaySeconds : Int) :
    ∀ (i : Nat) (rs : List String),
      (scheduleRecipientsFrom startTime now delaySeconds i rs).length = rs.length
  | _, [] => rfl
  | i, _ :: rest => by
      simp [scheduleRecipientsFrom,
        length_scheduleRecipientsFrom startTime now delaySeconds (i + 1) rest]

theorem length_scheduleRecipients (startTime now delaySeconds : Int)
    (rs : List String) :
    (scheduleRecipients startTime now delaySeconds rs).length = rs.length :=
  length_scheduleRecipientsFrom startTime now delaySeconds 0 rs

theorem get_scheduleRecipientsFrom (startTime now delaySeconds : Int) :
    ∀ (rs : List String) (j i : Nat)
      (h : i < (scheduleRecipientsFrom startTime now delaySeconds j rs).length)
      (h2 : i < rs.length),
      (scheduleRecipientsFrom startTime now delaySeconds j rs).get ⟨i, h⟩
        = scheduleRecipient startTime now delaySeconds (j + i) (rs.get ⟨i, h2⟩)
  | [], _, i, h, _ => by simp [scheduleRecipientsFrom] at h
  | e :: rest, j, 0, _, _ => by simp [scheduleRecipientsFrom]
  | e :: rest, j, i + 1, h, h2 => by
      have hr :
          i < (scheduleRecipientsFrom startTime now delaySeconds (j + 1) rest).length := by
        simpa [scheduleRecipientsFrom] using Nat.lt_of_succ_lt_succ h
      have hr2 : i < rest.length := Nat.lt_of_succ_lt_succ h2
      have ih := get_scheduleRecipientsFrom startTime now delaySeconds rest
        (j + 1) i hr hr2
      simp only [scheduleRecipientsFrom, List.get_cons_succ]
      rw [ih]
      congr 1
      omega

theorem get_scheduleRecipients (startTime now delaySeconds : Int)
    (rs : List String) (i : Nat)
    (h : i < (scheduleRecipients startTime now delaySeconds rs).length)
    (h2 : i < rs.length) :
    (scheduleRecipients startTime now delaySeconds rs).get ⟨i, h⟩
      = scheduleRecipient startTime now delaySeconds i (rs.get ⟨i, h2⟩) := by
  have := get_scheduleRecipientsFrom startTime now delaySeconds rs 0 i h h2
  simpa using this

/-- Claim C1: for every valid submission with N recipients the response
carries `recipientCount = N`, and the recipient at 0-based position `i` is
persisted with `scheduledAt = startTime + i * delaySeconds` (times in
milliseconds, so the stagger term is `i * delaySeconds * 1000`). -/
theorem schedule_recipientCount_and_scheduledAt
    (jobId : String) (startTime now delaySeconds : Int)
    (recipients : List String) (i : Nat)
    (h : i < (scheduleRecipients startTime now delaySeconds recipients).length) :
    (scheduleOkResponse jobId startTime recipients).recipientCount
        = recipients.length ∧
    ((scheduleRecipients startTime now delaySeconds recipients).get
        ⟨i, h⟩).scheduledAt
      = startTime + (i : Int) * delaySeconds * 1000 := by
  have h2 : i < recipients.length := by
    simpa [length_scheduleRecipients] using h
  constructor
  · simp [scheduleOkResponse, createdRecipients]
  · rw [get_scheduleRecipients startTime now delaySeconds recipients i h h2]
    simp [scheduleRecipient]

theorem schedule_recipientCount_and_scheduledAt_witness :
    (scheduleOkResponse "job1" 0 ["a@x.com", "b@x.com"]).recipientCount = 2 ∧
    ((scheduleRecipients 0 0 5 ["a@x.com", "b@x.com"]).get
        ⟨1, by decide⟩).scheduledAt = 0 + ((1 : Nat) : Int) * 5 * 1000 :=
  schedule_recipientCount_and_scheduledAt "job1" 0 0 5 ["a@x.com", "b@x.com"] 1
    (by decide)

/-- Claim C6: at submission, each recipient's `queueDelay` is
`max 0 (scheduledAt - now)`, the row is persisted with `status = pending`
exactly when `queueDelay < 10000` milliseconds (immediate) and with
`status = scheduled` otherwise (deferred). -/
theorem schedule_immediate_vs_deferred
    (startTime now delaySeconds : Int) (recipients : List String) (i : Nat)
    (h : i < (scheduleRecipients startTime now delaySeconds recipients).length) :
    ((scheduleRecipients startTime now delaySeconds recipients).get
        ⟨i, h⟩).queueDelay
      = max 0 (((scheduleRecipients startTime now delaySeconds recipients).get
        ⟨i, h⟩).scheduledAt - now) ∧
    (((scheduleRecipients startTime now delaySeconds recipients).get
        ⟨i, h⟩).status = .pending ↔
      ((scheduleRecipients startTime now delaySeconds recipients).get
        ⟨i, h⟩).queueDelay < 10000) ∧
    (((scheduleRecipients startTime now delaySeconds recipients).get
        ⟨i, h⟩).status = .scheduled ↔
      10000 ≤ ((scheduleRecipients startTime now delaySeconds recipients).get
        ⟨i, h⟩).queueDelay) := by
  have h2 : i < recipients.length := by
    simpa [length_scheduleRecipients] using h
  rw [get_scheduleRecipients startTime now delaySeconds recipients i h h2]
  refine ⟨rfl, ?_, ?_⟩ <;>
    simp only [scheduleRecipient] <;> split <;> rename_i hcmp <;> simp_all

theorem schedule_immediate_vs_deferred_witness :
    ((scheduleRecipients 0 0 5 ["a@x.com"]).get ⟨0, by decide⟩).queueDelay
      = max 0 (((scheduleRecipients 0 0 5 ["a@x.com"]).get
        ⟨0, by decide⟩).scheduledAt - 0) ∧
    (((scheduleRecipients 0 0 5 ["a@x.com"]).get ⟨0, by decide⟩).status
        = .pending ↔
      ((scheduleRecipients 0 0 5 ["a@x.com"]).get
        ⟨0, by decide⟩).queueDelay < 10000) ∧
    (((scheduleRecipients 0 0 5 ["a@x.com"]).get ⟨0, by decide⟩).status
        = .scheduled ↔
      10000 ≤ ((scheduleRecipients 0 0 5 ["a@x.com"]).get
        ⟨0, by decide⟩).queueDelay) :=
  schedule_immediate_vs_deferred 0 0 5 ["a@x.com"] 0 (by decide)

/-- Claim C7 fails on the code: in the scenario with 3 recipients,
`startTime = now` and `delaySeconds = 5`, recipient 1 has queue delay
5000 ms, which is below the 10000 ms threshold, so it is classified
immediate (`status = pending`), not deferred (`status = scheduled`) as the
claim states. -/
theorem scenario_three_recipients_counterexample :
    ((scheduleRecipients 0 0 5 ["a@x.com", "b@x.com", "c@x.com"]).get
        ⟨1, by decide⟩).status = .pending ∧
    ¬ ((scheduleRecipients 0 0 5 ["a@x.com", "b@x.com", "c@x.com"]).get
        ⟨1, by decide⟩).status = .scheduled := by
  decide

/-- Claim C7 amended: for 3 recipients with `startTime = now` and
`delaySeconds = 5`, the persisted `scheduledAt` offsets are 0 s, 5 s, 10 s;
recipients 0 and 1 are classified immediate (`status = pending`, queue
delays 0 s and 5 s are below the 10 s threshold) and recipient 2 is
classified deferred (`status = scheduled`). -/
theorem scenario_three_recipients_amended :
    (scheduleRecipients 0 0 5 ["a@x.com", "b@x.com", "c@x.com"]).map
        (fun r => r.scheduledAt) = [0, 5000, 10000] ∧
    (scheduleRecipients 0 0 5 ["a@x.com", "b@x.com", "c@x.com"]).map
        (fun r => r.status) = [.pending, .pending, .scheduled] := by
  decide

/-! ## Completion check (index.ts lines 526-538) -/

/-- index.ts line 531: `jobRecipients.every((r) => r.status === 'sent')`,
evaluated on the re-read recipient rows of the job. -/
def allSent (siblings : List RecipientRow) : Bool :=
  siblings.all (fun r => r.status == .sent)

/-- index.ts lines 533-538: the conditional job update performed after a
recipient is marked sent. `some .completed` means the engine writes
`status = completed` on the job; `none` means no job write happens. -/
def completionWrite (siblings : List RecipientRow) : Option JobStatus :=
  if allSent siblings then some JobStatus.completed else none

/-- A sample recipient row used to instantiate witnesses. -/
def sampleRecipient (st : RecipientStatus) : RecipientRow :=
  { id := "r1"
    email := "a@x.com"
    emailJobId := "j1"
    status := st
    scheduledAt := none
    sentAt := none
    errorMessage := none
    retryCount := 0 }

/-- Claim C2: at the completion check, the engine writes `completed` on the
job if and only if every recipient of that job has `status = sent`, and it
never writes `completed` while any sibling recipient is `pending`,
`scheduled`, or `failed`. -/
theorem completion_iff_all_sent (siblings : List RecipientRow) :
    (completionWrite siblings = some JobStatus.completed ↔
      ∀ r ∈ siblings, r.status = RecipientStatus.sent) ∧
    ((∃ r ∈ siblings, r.status = RecipientStatus.pending ∨
        r.status = RecipientStatus.scheduled ∨
        r.status = RecipientStatus.failed) →
      completionWrite siblings = none) := by
  constructor
  · unfold completionWrite allSent
    split <;> rename_i hall
    · simp only [List.all_eq_true, beq_iff_eq] at hall
      exact iff_of_true rfl hall
    · simp only [List.all_eq_true, beq_iff_eq] at hall
      push_neg at hall
      obtain ⟨r, hr, hrs⟩ := hall
      simp only [reduceCtorEq, false_iff, not_forall]
      exact ⟨r, hr, hrs⟩
  · rintro ⟨r, hr, hrs⟩
    unfold completionWrite allSent
    split <;> rename_i hall
    · simp only [List.all_eq_true, beq_iff_eq] at hall
      have := hall r hr
      rcases hrs with h1 | h1 | h1 <;> rw [h1] at this <;> exact absurd this (by decide)
    · rfl

theorem completion_iff_all_sent_witness :
    completionWrite [sampleRecipient RecipientStatus.pending] = none :=
  (completion_iff_all_sent [sampleRecipient RecipientStatus.pending]).2
    ⟨sampleRecipient RecipientStatus.pending, by simp, Or.inl rfl⟩

/-! ## Rate limiter (index.ts lines 456-472) -/

/-- The Redis counter keys touched by `checkRateLimit`: the count stored
under `rate_limit:userId:hourBucket`, 0 when the key is absent. -/
structure RateLimitStore where
  counters : String → Nat → Nat

/-- A counter store with no keys set. -/
def emptyRateLimitStore : RateLimitStore := ⟨fun _ _ => 0⟩

/-- index.ts line 461: `currentHour = Math.floor(Date.now() / (1000*60*60))`. -/
def hourBucket (now : Nat) : Nat := now / 3600000

/-- index.ts lines 457-472: atomically increment the counter for
`(userId, currentHour)` and admit the send exactly when the post-increment
count is at most `hourlyLimit`. Returns the admission decision and the
updated counter store. (The 3600-second key expiry set on first increment is
time-to-live bookkeeping inside Redis and is not modelled.) -/
def checkRateLimit (store : RateLimitStore) (now : Nat) (userId : String)
    (hourlyLimit : Nat) : Bool × RateLimitStore :=
  let currentHour := hourBucket now
  let currentCount := store.counters userId currentHour + 1
  let store2 : RateLimitStore :=
    ⟨fun u h => if u = userId ∧ h = currentHour then currentCount
      else store.counters u h⟩
  (decide (currentCount ≤ hourlyLimit), store2)

/-- Sequential calls to `checkRateLimit` for one user inside one hour bucket,
threading the counter store; returns the admission decisions in order. -/
def runRateLimitCalls (now : Nat) (userId : String) (hourlyLimit : Nat) :
    Nat → RateLimitStore → List Bool
  | 0, _ => []
  | n + 1, store =>
      let r := checkRateLimit store now userId hourlyLimit
      r.1 :: runRateLimitCalls now userId hourlyLimit n r.2

theorem checkRateLimit_counter (store : RateLimitStore) (now : Nat)
    (userId : String) (hourlyLimit : Nat) :
    ((checkRateLimit store now userId hourlyLimit).2).counters userId
        (hourBucket now)
      = store.counters userId (hourBucket now) + 1 := by
  simp [checkRateLimit]

theorem runRateLimitCalls_eq (now : Nat) (userId : String) (hourlyLimit : Nat) :
    ∀ (n : Nat) (store : RateLimitStore) (c : Nat),
      store.counters userId (hourBucket now) = c →
      runRateLimitCalls now userId hourlyLimit n store
        = (List.range n).map (fun i => decide (c + i + 1 ≤ hourlyLimit))
  | 0, _, _, _ => by simp [runRateLimitCalls]
  | n + 1, store, c, hc => by
      have hstep := checkRateLimit_counter store now userId hourlyLimit
      rw [hc] at hstep
      have ih := runRateLimitCalls_eq now userId hourlyLimit n
        (checkRateLimit store now userId hourlyLimit).2 (c + 1) hstep
      have hhead : (checkRateLimit store now userId hourlyLimit).1
          = decide (c + 1 ≤ hourlyLimit) := by
        simp [checkRateLimit, hc]
      rw [runRateLimitCalls, ih, hhead, List.range_succ_eq_map, List.map_cons,
        List.map_map]
      congr 1
      simp
      intro a _
      omega

/-- Claim C3: each call to the rate limiter increments the counter for
`(userId, current hour bucket)` and returns `true` exactly when the
post-increment count is at most `hourlyLimit`; consequently, starting from
an empty store, of `hourlyLimit + 1` sequential calls in one hour bucket the
i-th call (0-based) is admitted exactly when `i + 1 ≤ hourlyLimit`: the
first `hourlyLimit` calls are admitted and the `(hourlyLimit+1)`-th is the
first rejection. -/
theorem checkRateLimit_spec (store : RateLimitStore) (now : Nat)
    (userId : String) (hourlyLimit : Nat) :
    (((checkRateLimit store now userId hourlyLimit).2).counters userId
        (hourBucket now)
      = store.counters userId (hourBucket now) + 1) ∧
    ((checkRateLimit store now userId hourlyLimit).1 = true ↔
      store.counters userId (hourBucket now) + 1 ≤ hourlyLimit) ∧
    (runRateLimitCalls now userId hourlyLimit (hourlyLimit + 1)
        emptyRateLimitStore
      = (List.range (hourlyLimit + 1)).map
          (fun i => decide (i + 1 ≤ hourlyLimit))) := by
  refine ⟨checkRateLimit_counter store now userId hourlyLimit, ?_, ?_⟩
  · simp [checkRateLimit]
  · have := runRateLimitCalls_eq now userId hourlyLimit (hourlyLimit + 1)
      emptyRateLimitStore 0 rfl
    simpa using this

/-! ## Worker task execution (index.ts lines 477-577) -/

/-- index.ts line 504: the sentinel message of the rate-limit deferral error,
also string-compared at line 544 to classify the caught error. -/
def rateLimitErrorMessage : String := "Rate limit exceeded, will retry next hour"

/-- index.ts line 489: `Math.ceil(Date.now() / (1000*60*60)) * (1000*60*60)`,
the hour boundary at or after `now` (milliseconds). -/
def nextHourBoundary (now : Nat) : Nat :=
  ((now + 3600000 - 1) / 3600000) * 3600000

/-- Outcome of one `transporter.sendMail` call: delivery with a transport
message id, or rejection with the transport error's message. -/
inductive SendResult
  | ok (messageId : String)
  | err (message : String)
deriving DecidableEq, Repr

/-- Observable effects of one worker task execution: the final recipient row,
the error message re-thrown to BullMQ (`none` when the task returns
successfully), and the job-status write performed by the completion check
(`none` when no job write happens). -/
structure TaskOutcome where
  recipient : RecipientRow
  thrown : Option String
  jobWrite : Option JobStatus
deriving DecidableEq, Repr

/-- index.ts lines 480-559, the worker processor for one task. `admitted` is
the result of `checkRateLimit`, `send` the outcome of the mailer call, and
`siblingsAfter` the re-read recipient rows of the job (line 527) after the
current recipient was marked sent. If not admitted, the recipient is set to
`scheduled` with `scheduledAt` at the next hour boundary and the rate-limit
error is thrown; the catch (lines 541-558) re-throws it unchanged when its
message equals the sentinel, and otherwise records `failed`, the error
message, and an incremented `retryCount` before re-throwing. -/
def processTask (admitted : Bool) (now : Nat) (send : SendResult)
    (rec : RecipientRow) (siblingsAfter : List RecipientRow) : TaskOutcome :=
  if admitted then
    match send with
    | .ok _ =>
        { recipient := { rec with status := .sent, sentAt := some (now : Int) }
          thrown := none
          jobWrite := completionWrite siblingsAfter }
    | .err msg =>
        if msg = rateLimitErrorMessage then
          { recipient := rec, thrown := some msg, jobWrite := none }
        else
          { recipient := { rec with
              status := .failed
              errorMessage := some msg
              retryCount := rec.retryCount + 1 }
            thrown := some msg
            jobWrite := none }
  else
    { recipient := { rec with
        status := .scheduled
        scheduledAt := some ((nextHourBoundary now : Nat) : Int) }
      thrown := some rateLimitErrorMessage
      jobWrite := none }

/-- Claim C4: when the rate limiter does not admit the send, the worker sets
the recipient to `status = scheduled` with `scheduledAt` at the next hour
boundary (a multiple of 3600000 ms, at or after `now`), throws the
rate-limit error back to the queue, leaves `retryCount` unchanged, and does
not set `status = failed`. -/
theorem rate_limited_task_defers (now : Nat) (send : SendResult)
    (rec : RecipientRow) (siblings : List RecipientRow) :
    (processTask false now send rec siblings).recipient.status
        = RecipientStatus.scheduled ∧
    (processTask false now send rec siblings).recipient.scheduledAt
        = some ((nextHourBoundary now : Nat) : Int) ∧
    nextHourBoundary now % 3600000 = 0 ∧
    now ≤ nextHourBoundary now ∧
    (processTask false now send rec siblings).thrown
        = some rateLimitErrorMessage ∧
    (processTask false now send rec siblings).recipient.retryCount
        = rec.retryCount ∧
    (processTask false now send rec siblings).recipient.status
        ≠ RecipientStatus.failed := by
  have hle : now ≤ nextHourBoundary now := by
    unfold nextHourBoundary
    have hdm := Nat.div_add_mod (now + 3600000 - 1) 3600000
    have hlt : (now + 3600000 - 1) % 3600000 < 3600000 :=
      Nat.mod_lt _ (by norm_num)
    omega
  refine ⟨rfl, rfl, Nat.mul_mod_left _ _, hle, rfl, rfl, ?_⟩
  intro hcon
  exact RecipientStatus.noConfusion hcon

/-- Claim C5: when the mailer send fails with a message other than the
rate-limit sentinel, the worker marks the recipient `failed`, records the
failure's message as `errorMessage`, increments `retryCount` by exactly 1,
and re-throws the error so the queue counts a retry attempt. -/
theorem mailer_failure_marks_failed (now : Nat) (msg : String)
    (rec : RecipientRow) (siblings : List RecipientRow)
    (hmsg : msg ≠ rateLimitErrorMessage) :
    (processTask true now (.err msg) rec siblings).recipient.status
        = RecipientStatus.failed ∧
    (processTask true now (.err msg) rec siblings).recipient.errorMessage
        = some msg ∧
    (processTask true now (.err msg) rec siblings).recipient.retryCount
        = rec.retryCount + 1 ∧
    (processTask true now (.err msg) rec siblings).thrown = some msg := by
  simp [processTask, hmsg]

theorem mailer_failure_marks_failed_witness :
    (processTask true 0 (.err "connection refused")
        (sampleRecipient RecipientStatus.pending) []).recipient.status
        = RecipientStatus.failed ∧
    (processTask true 0 (.err "connection refused")
        (sampleRecipient RecipientStatus.pending) []).recipient.errorMessage
        = some "connection refused" ∧
    (processTask true 0 (.err "connection refused")
        (sampleRecipient RecipientStatus.pending) []).recipient.retryCount
        = (sampleRecipient RecipientStatus.pending).retryCount + 1 ∧
    (processTask true 0 (.err "connection refused")
        (sampleRecipient RecipientStatus.pending) []).thrown
        = some "connection refused" :=
  mailer_failure_marks_failed 0 "connection refused"
    (sampleRecipient RecipientStatus.pending) [] (by decide)

/-! ## Request validation (index.ts lines 62-80 and 100-112) -/

/-- The raw JSON body of a POST /api/emails/schedule request; `none` models
an absent field. Numeric fields are modelled as integers. -/
structure RawScheduleRequest where
  subject : Option String
  body : Option String
  recipients : Option (List String)
  startTime : Option String
  delaySeconds : Option Int
  hourlyLimit : Option Int
  userId : Option String
  userEmail : Option String
deriving DecidableEq, Repr

/-- A request that passed the zod schema. `startTime` is the parsed instant
in milliseconds. -/
structure ParsedScheduleRequest where
  subject : String
  body : String
  recipients : List String
  startTime : Int
  delaySeconds : Int
  hourlyLimit : Int
  userId : String
  userEmail : Option String
deriving DecidableEq, Repr

/-- index.ts lines 62-80, the zod schema `scheduleEmailSchema`: every field
required except `userEmail`; `subject` and `body` nonempty; `recipients` a
nonempty array whose members all pass the email check; `startTime` must
parse to an instant; `delaySeconds` in the range 1 to 300 and `hourlyLimit`
in the range 1 to 1000. The zod email validator and the JS `Date` parser are
library code, passed in as `emailOk` and `parseDate`. -/
def parseScheduleRequest (emailOk : String → Bool)
    (parseDate : String → Option Int) (req : RawScheduleRequest) :
    Option ParsedScheduleRequest :=
  match req.subject, req.body, req.recipients, req.startTime,
      req.delaySeconds, req.hourlyLimit, req.userId with
  | some subj, some b, some rs, some st, some d, some hl, some uid =>
      if 1 ≤ subj.length ∧ 1 ≤ b.length ∧ 1 ≤ rs.length ∧
          rs.all emailOk = true ∧ 1 ≤ d ∧ d ≤ 300 ∧ 1 ≤ hl ∧ hl ≤ 1000 then
        match parseDate st with
        | some t =>
            some { subject := subj, body := b, recipients := rs,
                   startTime := t, delaySeconds := d, hourlyLimit := hl,
                   userId := uid, userEmail := req.userEmail }
        | none => none
      else none
  | _, _, _, _, _, _, _ => none

/-- index.ts lines 100-112: the handler parses the body (a zod failure is
answered with HTTP 400 in the catch) and then rejects
`userId === 'default-user'` and falsy (empty) `userId` with HTTP 400.
Returns the data the handler goes on to persist, or `none` when the request
is rejected before anything is persisted. -/
def scheduleGate (emailOk : String → Bool) (parseDate : String → Option Int)
    (req : RawScheduleRequest) : Option ParsedScheduleRequest :=
  match parseScheduleRequest emailOk parseDate req with
  | none => none
  | some p => if p.userId = "default-user" ∨ p.userId = "" then none else some p

theorem parseScheduleRequest_some (emailOk : String → Bool)
    (parseDate : String → Option Int) (req : RawScheduleRequest)
    (q : ParsedScheduleRequest)
    (h : parseScheduleRequest emailOk parseDate req = some q) :
    req.subject = some q.subject ∧ req.body = some q.body ∧
    req.recipients = some q.recipients ∧ 1 ≤ q.recipients.length ∧
    q.recipients.all emailOk = true ∧
    (∃ st, req.startTime = some st ∧ parseDate st = some q.startTime) ∧
    req.delaySeconds = some q.delaySeconds ∧ 1 ≤ q.delaySeconds ∧
    q.delaySeconds ≤ 300 ∧
    req.hourlyLimit = some q.hourlyLimit ∧ 1 ≤ q.hourlyLimit ∧
    q.hourlyLimit ≤ 1000 ∧
    req.userId = some q.userId := by
  unfold parseScheduleRequest at h
  cases hsub : req.subject with
  | none => rw [hsub] at h; exact absurd h (by simp)
  | some subj =>
  cases hb : req.body with
  | none => rw [hsub, hb] at h; exact absurd h (by simp)
  | some b =>
  cases hrs : req.recipients with
  | none => rw [hsub, hb, hrs] at h; exact absurd h (by simp)
  | some rs =>
  cases hst : req.startTime with
  | none => rw [hsub, hb, hrs, hst] at h; exact absurd h (by simp)
  | some st =>
  cases hd : req.delaySeconds with
  | none => rw [hsub, hb, hrs, hst, hd] at h; exact absurd h (by simp)
  | some d =>
  cases hhl : req.hourlyLimit with
  | none => rw [hsub, hb, hrs, hst, hd, hhl] at h; exact absurd h (by simp)
  | some hl =>
  cases huid : req.userId with
  | none => rw [hsub, hb, hrs, hst, hd, hhl, huid] at h; exact absurd h (by simp)
  | some uid =>
      rw [hsub, hb, hrs, hst, hd, hhl, huid] at h
      simp only at h
      split at h
      · rename_i hcond
        cases hpd : parseDate st with
        | none => rw [hpd] at h; exact absurd h (by simp)
        | some t =>
            rw [hpd] at h
            have hq := Option.some_inj.mp h
            subst hq
            exact ⟨rfl, rfl, rfl, hcond.2.2.1, hcond.2.2.2.1,
              ⟨st, rfl, hpd⟩, rfl, hcond.2.2.2.2.1, hcond.2.2.2.2.2.1,
              rfl, hcond.2.2.2.2.2.2.1, hcond.2.2.2.2.2.2.2, rfl⟩
      · exact absurd h (by simp)

theorem scheduleGate_eq_some (emailOk : String → Bool)
    (parseDate : String → Option Int) (req : RawScheduleRequest)
    (p : ParsedScheduleRequest)
    (hp : scheduleGate emailOk parseDate req = some p) :
    parseScheduleRequest emailOk parseDate req = some p ∧
    p.userId ≠ "default-user" ∧ p.userId ≠ "" := by
  unfold scheduleGate at hp
  cases hparse : parseScheduleRequest emailOk parseDate req with
  | none => rw [hparse] at hp; exact absurd hp (by simp)
  | some q =>
      rw [hparse] at hp
      have hp2 : (if q.userId = "default-user" ∨ q.userId = "" then none
          else some q) = some p := hp
      by_cases hq : q.userId = "default-user" ∨ q.userId = ""
      · rw [if_pos hq] at hp2
        exact absurd hp2 (by simp)
      · rw [if_neg hq] at hp2
        have hqp := Option.some_inj.mp hp2
        subst hqp
        push_neg at hq
        exact ⟨rfl, hq.1, hq.2⟩

/-- Claim C8: the submission endpoint rejects (HTTP 400, nothing persisted,
modelled as `scheduleGate = none`) whenever the request has an empty
recipient list, a recipient failing the email check, an unparseable
`startTime`, `delaySeconds` outside 1..300, `hourlyLimit` outside 1..1000,
or a `userId` that is absent or equal to the sentinel `default-user`; and
whenever the gate admits a request, its `userId` is not the sentinel, so no
job is ever created with the sentinel user id. -/
theorem schedule_validation_rejects (emailOk : String → Bool)
    (parseDate : String → Option Int) (req : RawScheduleRequest) :
    ((req.recipients = some [] ∨
      (∃ rs, req.recipients = some rs ∧ ∃ r ∈ rs, emailOk r = false) ∨
      (∃ st, req.startTime = some st ∧ parseDate st = none) ∨
      (∃ d, req.delaySeconds = some d ∧ (d < 1 ∨ 300 < d)) ∨
      (∃ hl, req.hourlyLimit = some hl ∧ (hl < 1 ∨ 1000 < hl)) ∨
      req.userId = none ∨ req.userId = some "default-user") →
      scheduleGate emailOk parseDate req = none) ∧
    (∀ p, scheduleGate emailOk parseDate req = some p →
      p.userId ≠ "default-user") := by
  constructor
  · intro hbad
    by_contra hne
    obtain ⟨p, hp⟩ := Option.ne_none_iff_exists'.mp hne
    obtain ⟨hparse, hsentinel, -⟩ :=
      scheduleGate_eq_some emailOk parseDate req p hp
    obtain ⟨hsub, hb, hrs, hlen, hall, ⟨st0, hst0, hpd0⟩, hd, hd1, hd2,
      hhl, hh1, hh2, huid⟩ :=
      parseScheduleRequest_some emailOk parseDate req p hparse
    rcases hbad with h | h | h | h | h | h | h
    · rw [hrs] at h
      have : p.recipients = [] := Option.some_inj.mp h
      rw [this] at hlen
      exact absurd hlen (by simp)
    · obtain ⟨rs2, hrs2, r, hr, hrf⟩ := h
      rw [hrs] at hrs2
      have : p.recipients = rs2 := Option.some_inj.mp hrs2
      rw [List.all_eq_true] at hall
      have := hall r (this ▸ hr)
      rw [hrf] at this
      exact Bool.false_ne_true this
    · obtain ⟨st2, hst2, hpd⟩ := h
      rw [hst0] at hst2
      have : st0 = st2 := Option.some_inj.mp hst2
      rw [← this, hpd0] at hpd
      exact Option.noConfusion hpd
    · obtain ⟨d2, hd2b, hrange⟩ := h
      rw [hd] at hd2b
      have : p.delaySeconds = d2 := Option.some_inj.mp hd2b
      rw [this] at hd1 hd2
      omega
    · obtain ⟨hl2, hhl2, hrange⟩ := h
      rw [hhl] at hhl2
      have : p.hourlyLimit = hl2 := Option.some_inj.mp hhl2
      rw [this] at hh1 hh2
      omega
    · rw [huid] at h
      exact Option.noConfusion h
    · rw [huid] at h
      exact hsentinel (Option.some_inj.mp h)
  · intro p hp
    exact (scheduleGate_eq_some emailOk parseDate req p hp).2.1

theorem schedule_validation_rejects_witness :
    scheduleGate (fun _ => true) (fun _ => some 0)
      { subject := some "hello"
        body := some "world"
        recipients := some ["a@x.com"]
        startTime := some "2024-01-01T00:00:00Z"
        delaySeconds := some 5
        hourlyLimit := some 10
        userId := some "default-user"
        userEmail := none } = none :=
  (schedule_validation_rejects (fun _ => true) (fun _ => some 0) _).1
    (Or.inr (Or.inr (Or.inr (Or.inr (Or.inr (Or.inr rfl))))))

/-! ## Error responses of the schedule endpoint (index.ts lines 228-240) -/

/-- The body and status of an unsuccessful schedule response. The optional
`jobId` and `recipientIds` fields record whether the response carries any
job or recipient identifiers; the handler's catch never sets them. -/
structure ScheduleErrorResponse where
  status : Nat
  error : String
  details : Option (List String)
  jobId : Option String
  recipientIds : Option (List String)
deriving DecidableEq, Repr

/-- The error the schedule handler's catch receives: a zod validation error
with its per-field messages, or any other failure (user resolution,
persistence, or enqueue rejection). -/
inductive ScheduleFailure
  | zodError (messages : List String)
  | otherError
deriving DecidableEq, Repr

/-- index.ts lines 228-240: a `ZodError` is answered with HTTP 400,
`error = "Validation failed"` and the per-field details; every other error
— including an enqueue failure after the job and recipients were committed —
is answered with HTTP 500 and the fixed body
`error = "Failed to schedule email"`, with no job or recipient ids. -/
def scheduleCatch : ScheduleFailure → ScheduleErrorResponse
  | .zodError msgs =>
      { status := 400, error := "Validation failed", details := some msgs,
        jobId := none, recipientIds := none }
  | .otherError =>
      { status := 500, error := "Failed to schedule email", details := none,
        jobId := none, recipientIds := none }

/-- Claim C9 fails on the code: when an enqueue rejection reaches the catch
after the job and recipients were committed, the response is the generic
HTTP 500 body, which contains no job id and no recipient ids, contrary to
the claim that they are reported for manual recovery. -/
theorem enqueue_failure_response_counterexample :
    (scheduleCatch ScheduleFailure.otherError).jobId = none ∧
    (scheduleCatch ScheduleFailure.otherError).recipientIds = none ∧
    (scheduleCatch ScheduleFailure.otherError).status = 500 := by
  decide

/-- Claim C9 amended: when an enqueue operation fails after the job and
recipients have been committed, the submission endpoint reports a
request-level failure to the caller — HTTP 500 with the generic body
`error = "Failed to schedule email"` — but the response includes neither the
job id nor the recipient ids. -/
theorem enqueue_failure_response_amended :
    (scheduleCatch ScheduleFailure.otherError).status = 500 ∧
    (scheduleCatch ScheduleFailure.otherError).error
        = "Failed to schedule email" ∧
    (scheduleCatch ScheduleFailure.otherError).jobId = none ∧
    (scheduleCatch ScheduleFailure.otherError).recipientIds = none := by
  decide

/-! ## GET /api/emails/scheduled and /api/emails/sent
(index.ts lines 244-348 and 351-454, with helpers from lib/security.ts) -/

/-- A persisted `User` row. -/
structure UserRow where
  id : String
  email : String
  name : String
deriving DecidableEq, Repr

/-- The persistent store consulted by the GET handlers. -/
structure Db where
  users : List UserRow
  jobs : List EmailJobRow
  recipients : List RecipientRow
deriving DecidableEq, Repr

/-- security.ts `sanitizeEmail`: `email.trim().toLowerCase()`, modelled
character-wise (strip leading and trailing whitespace, lowercase). -/
def sanitizeEmail (email : String) : String :=
  String.mk ((((email.toList.dropWhile Char.isWhitespace).reverse.dropWhile
    Char.isWhitespace).reverse).map Char.toLower)

/-- Split a character list at its first at-sign, or `none` when it has
no at-sign. -/
def splitAtFirstAtSign : List Char → List Char → Option (List Char × List Char)
  | _, [] => none
  | acc, c :: cs =>
      if c = '@' then some (acc.reverse, cs)
      else splitAtFirstAtSign (c :: acc) cs

/-- The email format test used by both GET handlers and by
security.ts `getUserByEmail` (index.ts line 256): one-or-more characters
that are neither whitespace nor an at-sign, an at-sign, then a domain of
the same character class containing a dot with at least one such character
on each side. -/
def emailRegexTest (s : String) : Bool :=
  match splitAtFirstAtSign [] s.toList with
  | none => false
  | some (l, r) =>
      !l.isEmpty && l.all (fun c => !c.isWhitespace) &&
      !r.contains '@' &&
      !r.isEmpty && r.all (fun c => !c.isWhitespace) &&
      ((r.drop 1).dropLast.contains '.')

/-- security.ts `getUserByEmail`: validate the email format, then look the
user up by exact email. -/
def getUserByEmail (db : Db) (email : String) : Option UserRow :=
  if emailRegexTest email then db.users.find? (fun u => u.email == email)
  else none

/-- The `include: emailJob` join: resolve a recipient's parent job. -/
def jobOf (db : Db) (r : RecipientRow) : Option EmailJobRow :=
  db.jobs.find? (fun j => j.id == r.emailJobId)

/-- Insertion of one element into a list sorted by `le`. -/
def insertSorted (le : α → α → Bool) (a : α) : List α → List α
  | [] => [a]
  | b :: bs => if le a b then a :: b :: bs else b :: insertSorted le a bs

/-- Insertion sort by `le`; models the `orderBy` of the store queries. -/
def sortByKey (le : α → α → Bool) : List α → List α
  | [] => []
  | a :: xs => insertSorted le a (sortByKey le xs)

/-- Ascending order on optional timestamps, nulls first. -/
def optLeAsc (a b : Option Int) : Bool :=
  match a, b with
  | none, _ => true
  | some _, none => false
  | some x, some y => decide (x ≤ y)

/-- Descending order on optional timestamps, nulls last. -/
def optLeDesc (a b : Option Int) : Bool :=
  match a, b with
  | none, none => true
  | none, some _ => false
  | some _, none => true
  | some x, some y => decide (y ≤ x)

/-- One row of the GET /api/emails/scheduled response. -/
structure ScheduledListItem where
  id : String
  email : String
  subject : String
  body : String
  scheduledFor : Int
  status : RecipientStatus
deriving DecidableEq, Repr

/-- One row of the GET /api/emails/sent response. -/
structure SentListItem where
  id : String
  email : String
  subject : String
  body : String
  sentAt : Option Int
  status : RecipientStatus
  errorMessage : Option String
deriving DecidableEq, Repr

/-- An HTTP response of a GET list endpoint: the status code and, on
success, the JSON array of rows. -/
structure ListResponse (α : Type) where
  httpStatus : Nat
  rows : Option (List α)
deriving DecidableEq, Repr

/-- index.ts lines 273 and 380: `sanitizedEmail.split('@')[0]`, the part of
the address before its first at-sign. -/
def namePart (sanitized : String) : String :=
  match splitAtFirstAtSign [] sanitized.toList with
  | some (l, _) => String.mk l
  | none => sanitized

/-- index.ts lines 264-291 (shared by both GET handlers): resolve the user
by sanitized email, or auto-create one whose email is the sanitized address
and whose name is the part before the at-sign. `freshId` models the id
generated by `db.user.create`. Returns the user and the updated store. -/
def resolveOrCreateUser (db : Db) (freshId : String) (sanitized : String) :
    UserRow × Db :=
  match getUserByEmail db sanitized with
  | some u => (u, db)
  | none =>
      let u : UserRow :=
        { id := freshId
          email := sanitized
          name := namePart sanitized }
      (u, { db with users := db.users ++ [u] })

/-- index.ts lines 296-341: the store query of GET /api/emails/scheduled —
the user's recipients with status `pending` or `scheduled` joined with their
job, double-checked for ownership, ordered by `scheduledAt` ascending,
capped at 100 rows, and mapped to response rows (`scheduledFor` falls back
to the job's `scheduledFor` when the recipient's `scheduledAt` is null). -/
def scheduledQuery (db : Db) (user : UserRow) : List ScheduledListItem :=
  let joined := db.recipients.filterMap (fun r =>
    match jobOf db r with
    | some j =>
        if (r.status = RecipientStatus.pending ∨
            r.status = RecipientStatus.scheduled) ∧ j.userId = user.id
        then some (r, j) else none
    | none => none)
  let owned := joined.filter (fun p => p.2.userId == user.id)
  let ordered :=
    sortByKey (fun p q => optLeAsc p.1.scheduledAt q.1.scheduledAt) owned
  (ordered.take 100).map (fun p =>
    { id := p.1.id
      email := p.1.email
      subject := p.2.subject
      body := p.2.body
      scheduledFor := p.1.scheduledAt.getD p.2.scheduledFor
      status := p.1.status })

/-- index.ts lines 403-447: the store query of GET /api/emails/sent — the
user's recipients with status `sent` or `failed` joined with their job,
double-checked for ownership, ordered by `sentAt` descending, capped at
100 rows, and mapped to response rows. -/
def sentQuery (db : Db) (user : UserRow) : List SentListItem :=
  let joined := db.recipients.filterMap (fun r =>
    match jobOf db r with
    | some j =>
        if (r.status = RecipientStatus.sent ∨
            r.status = RecipientStatus.failed) ∧ j.userId = user.id
        then some (r, j) else none
    | none => none)
  let owned := joined.filter (fun p => p.2.userId == user.id)
  let ordered :=
    sortByKey (fun p q => optLeDesc p.1.sentAt q.1.sentAt) owned
  (ordered.take 100).map (fun p =>
    { id := p.1.id
      email := p.1.email
      subject := p.2.subject
      body := p.2.body
      sentAt := p.1.sentAt
      status := p.1.status
      errorMessage := p.1.errorMessage })

/-- index.ts lines 244-348, GET /api/emails/scheduled: reject a missing or
malformed `userEmail` with HTTP 400; otherwise resolve or auto-create the
user and answer HTTP 200 with the scheduled-email rows. -/
def getScheduledHandler :
    Db → String → Option String → ListResponse ScheduledListItem × Db
  | db, _, none => ({ httpStatus := 400, rows := none }, db)
  | db, freshId, some ue =>
      if emailRegexTest (sanitizeEmail ue) = false then
        ({ httpStatus := 400, rows := none }, db)
      else
        let ud := resolveOrCreateUser db freshId (sanitizeEmail ue)
        ({ httpStatus := 200, rows := some (scheduledQuery ud.2 ud.1) }, ud.2)

/-- index.ts lines 351-454, GET /api/emails/sent: reject a missing or
malformed `userEmail` with HTTP 400; otherwise resolve or auto-create the
user and answer HTTP 200 with the sent-email rows. -/
def getSentHandler :
    Db → String → Option String → ListResponse SentListItem × Db
  | db, _, none => ({ httpStatus := 400, rows := none }, db)
  | db, freshId, some ue =>
      if emailRegexTest (sanitizeEmail ue) = false then
        ({ httpStatus := 400, rows := none }, db)
      else
        let ud := resolveOrCreateUser db freshId (sanitizeEmail ue)
        ({ httpStatus := 200, rows := some (sentQuery ud.2 ud.1) }, ud.2)

/-- The user row auto-created for a sanitized email address. -/
def autoCreatedUser (freshId sanitized : String) : UserRow :=
  { id := freshId
    email := sanitized
    name := namePart sanitized }

theorem resolveOrCreateUser_of_none (db : Db) (freshId sanitized : String)
    (h : getUserByEmail db sanitized = none) :
    resolveOrCreateUser db freshId sanitized
      = (autoCreatedUser freshId sanitized,
         { db with users := db.users ++ [autoCreatedUser freshId sanitized] }) := by
  unfold resolveOrCreateUser
  rw [h]
  rfl

theorem scheduledQuery_empty (db : Db) (user : UserRow)
    (h : ∀ j ∈ db.jobs, j.userId ≠ user.id) :
    scheduledQuery db user = [] := by
  unfold scheduledQuery
  have hjoin : db.recipients.filterMap (fun r =>
      match jobOf db r with
      | some j =>
          if (r.status = RecipientStatus.pending ∨
              r.status = RecipientStatus.scheduled) ∧ j.userId = user.id
          then some (r, j) else none
      | none => none) = [] := by
    rw [List.filterMap_eq_nil_iff]
    intro r _
    cases hj : jobOf db r with
    | none => rfl
    | some j =>
        have hmem : j ∈ db.jobs := List.mem_of_find?_eq_some hj
        show (if (r.status = RecipientStatus.pending ∨
            r.status = RecipientStatus.scheduled) ∧ j.userId = user.id
          then some (r, j) else none) = none
        rw [if_neg (fun hcond => h j hmem hcond.2)]
  rw [hjoin]
  rfl

theorem sentQuery_empty (db : Db) (user : UserRow)
    (h : ∀ j ∈ db.jobs, j.userId ≠ user.id) :
    sentQuery db user = [] := by
  unfold sentQuery
  have hjoin : db.recipients.filterMap (fun r =>
      match jobOf db r with
      | some j =>
          if (r.status = RecipientStatus.sent ∨
              r.status = RecipientStatus.failed) ∧ j.userId = user.id
          then some (r, j) else none
      | none => none) = [] := by
    rw [List.filterMap_eq_nil_iff]
    intro r _
    cases hj : jobOf db r with
    | none => rfl
    | some j =>
        have hmem : j ∈ db.jobs := List.mem_of_find?_eq_some hj
        show (if (r.status = RecipientStatus.sent ∨
            r.status = RecipientStatus.failed) ∧ j.userId = user.id
          then some (r, j) else none) = none
        rw [if_neg (fun hcond => h j hmem hcond.2)]
  rw [hjoin]
  rfl

/-- Claim C10: for every GET /api/emails/scheduled or GET /api/emails/sent
request whose `userEmail` is well-formed (after trim/lowercase
sanitization) but matches no existing user record, the handler creates a new
user with the sanitized email, the name taken from the part before the
at-sign, and a fresh id, and returns HTTP 200 with an empty array rather
than an error. -/
theorem get_handlers_autocreate_user (db : Db) (freshId ue : String)
    (hre : emailRegexTest (sanitizeEmail ue) = true)
    (hnouser : getUserByEmail db (sanitizeEmail ue) = none)
    (hfresh : ∀ j ∈ db.jobs, j.userId ≠ freshId) :
    (getScheduledHandler db freshId (some ue)).1.httpStatus = 200 ∧
    (getScheduledHandler db freshId (some ue)).1.rows = some [] ∧
    ((getScheduledHandler db freshId (some ue)).2).users
      = db.users ++ [autoCreatedUser freshId (sanitizeEmail ue)] ∧
    (getSentHandler db freshId (some ue)).1.httpStatus = 200 ∧
    (getSentHandler db freshId (some ue)).1.rows = some [] ∧
    ((getSentHandler db freshId (some ue)).2).users
      = db.users ++ [autoCreatedUser freshId (sanitizeEmail ue)] := by
  have hud := resolveOrCreateUser_of_none db freshId (sanitizeEmail ue) hnouser
  have hdb2 : (resolveOrCreateUser db freshId (sanitizeEmail ue)).2.jobs
      = db.jobs := by rw [hud]
  have huser : (resolveOrCreateUser db freshId (sanitizeEmail ue)).1.id
      = freshId := by rw [hud]; rfl
  have hempty1 :
      scheduledQuery (resolveOrCreateUser db freshId (sanitizeEmail ue)).2
        (resolveOrCreateUser db freshId (sanitizeEmail ue)).1 = [] := by
    apply scheduledQuery_empty
    rw [hdb2, huser]
    exact hfresh
  have hempty2 :
      sentQuery (resolveOrCreateUser db freshId (sanitizeEmail ue)).2
        (resolveOrCreateUser db freshId (sanitizeEmail ue)).1 = [] := by
    apply sentQuery_empty
    rw [hdb2, huser]
    exact hfresh
  have husers : (resolveOrCreateUser db freshId (sanitizeEmail ue)).2.users
      = db.users ++ [autoCreatedUser freshId (sanitizeEmail ue)] := by
    rw [hud]
  refine ⟨?_, ?_, ?_, ?_, ?_, ?_⟩ <;>
    simp [getScheduledHandler, getSentHandler, hre, hempty1, hempty2, husers]

theorem get_handlers_autocreate_user_witness :
    (getScheduledHandler ⟨[], [], []⟩ "u1" (some "a@x.com")).1.httpStatus
        = 200 ∧
    (getScheduledHandler ⟨[], [], []⟩ "u1" (some "a@x.com")).1.rows
        = some [] ∧
    ((getScheduledHandler ⟨[], [], []⟩ "u1" (some "a@x.com")).2).users
        = ([] : List UserRow) ++ [autoCreatedUser "u1" (sanitizeEmail "a@x.com")] ∧
    (getSentHandler ⟨[], [], []⟩ "u1" (some "a@x.com")).1.httpStatus = 200 ∧
    (getSentHandler ⟨[], [], []⟩ "u1" (some "a@x.com")).1.rows = some [] ∧
    ((getSentHandler ⟨[], [], []⟩ "u1" (some "a@x.com")).2).users
        = ([] : List UserRow) ++ [autoCreatedUser "u1" (sanitizeEmail "a@x.com")] :=
  get_handlers_autocreate_user ⟨[], [], []⟩ "u1" "a@x.com" (by decide)
    (by decide) (by simp)

end EmailScheduler
